import Mathlib

/-!
Verification of mod_ringback (FreeSWITCH ringback-tone detection module)
against its natural-language specification.

The definitions below are a shallow embedding of
src/freeswitch/mod/applications/mod_ringback/mod_ringback.c.
Machine integers: all duration fields are `uint32_t` in the C source; we
model them as `Nat`, with the two `uint32_t` subtractions that occur in the
media callback modelled explicitly modulo 2^32 (`u32sub`).  C `double`
values (energies, Goertzel coefficient) are modelled as `ℝ`.
-/

namespace ModRingback

/-! ### Constants (mod_ringback.c lines 24-55) -/

def RINGBACK_TONE_BUSY : Nat := 0x01

def RINGBACK_TONE_RINGBACK : Nat := 0x02

def SAMPLE_RATE : Nat := 8000

def GOERTZEL_N : Nat := 205

def BUSY_ON_MIN : Nat := 250

def BUSY_ON_MAX : Nat := 450

def BUSY_OFF_MIN : Nat := 250

def BUSY_OFF_MAX : Nat := 450

def RINGBACK_ON_MIN : Nat := 900

def RINGBACK_ON_MAX : Nat := 1200

def RINGBACK_OFF_MIN : Nat := 3000

def RINGBACK_OFF_MAX : Nat := 5000

def CONGESTION_ON_MIN : Nat := 600

def CONGESTION_ON_MAX : Nat := 800

def CONGESTION_OFF_MIN : Nat := 500

def CONGESTION_OFF_MAX : Nat := 900

/-! ### Timing-pattern matchers (mod_ringback.c lines 120-139)

Each C matcher returns the truth value of a conjunction of four closed
interval bounds on `uint32_t` arguments; we model each as a decidable
`Prop` over `Nat`. -/

/-- match_busy_pattern (mod_ringback.c lines 121-125). -/
def match_busy_pattern (on_ms off_ms : Nat) : Prop :=
  BUSY_ON_MIN ≤ on_ms ∧ on_ms ≤ BUSY_ON_MAX ∧
  BUSY_OFF_MIN ≤ off_ms ∧ off_ms ≤ BUSY_OFF_MAX

instance (on_ms off_ms : Nat) : Decidable (match_busy_pattern on_ms off_ms) := by
  unfold match_busy_pattern; infer_instance

/-- match_ringback_pattern (mod_ringback.c lines 128-132). -/
def match_ringback_pattern (on_ms off_ms : Nat) : Prop :=
  RINGBACK_ON_MIN ≤ on_ms ∧ on_ms ≤ RINGBACK_ON_MAX ∧
  RINGBACK_OFF_MIN ≤ off_ms ∧ off_ms ≤ RINGBACK_OFF_MAX

instance (on_ms off_ms : Nat) : Decidable (match_ringback_pattern on_ms off_ms) := by
  unfold match_ringback_pattern; infer_instance

/-- match_congestion_pattern (mod_ringback.c lines 135-139). -/
def match_congestion_pattern (on_ms off_ms : Nat) : Prop :=
  CONGESTION_ON_MIN ≤ on_ms ∧ on_ms ≤ CONGESTION_ON_MAX ∧
  CONGESTION_OFF_MIN ≤ off_ms ∧ off_ms ≤ CONGESTION_OFF_MAX

instance (on_ms off_ms : Nat) : Decidable (match_congestion_pattern on_ms off_ms) := by
  unfold match_congestion_pattern; infer_instance

/-! ### Detection state (struct ringback_state, mod_ringback.c lines 58-79)

We keep the fields that the callback's control flow reads or writes.  The
pointer fields (`session`, `bug`, `stoptone`) and the fields the callback
never consults (`autohangup`, `hangup_on_ringback`, the Goertzel
accumulator) carry no information for the duration/verdict logic; the
Goertzel accumulator is modelled separately with the energy gate below. -/

structure RingbackState where
  running : Bool
  in_tone : Bool
  tone_start_ms : Nat
  silence_start_ms : Nat
  last_tone_duration_ms : Nat
  last_silence_duration_ms : Nat
  tone_type : Nat
  consecutive_busy : Nat
  consecutive_ringback : Nat
  max_detect_time_ms : Nat
  hangup_on_busy : Bool
  deriving Repr, DecidableEq

/-- uint32_t subtraction `a - b` for operands below 2^32, as used at
mod_ringback.c lines 208 and 215 (`now_ms - silence_start_ms`,
`now_ms - tone_start_ms`). -/
def u32sub (a b : Nat) : Nat := (a + 2 ^ 32 - b) % 2 ^ 32

/-- Observable effects of one media-callback invocation: the callback's
return value (`SWITCH_TRUE` = keep the media bug), whether
`set_ringback_result` was called, and whether `switch_channel_hangup`
was requested. -/
structure BugOutput where
  keepBug : Bool
  resultSet : Bool
  hangup : Bool
  deriving Repr, DecidableEq

/-- The effect of a callback invocation that only returns `SWITCH_TRUE`. -/
def BUG_CONTINUE : BugOutput := ⟨true, false, false⟩

/-- ringback_media_callback (mod_ringback.c lines 142-249), as a function of
the current state, the frame validity test of lines 156-162
(`frame->data && frame->datalen > 0 && samples_per_frame > 0`), the elapsed
milliseconds `now_ms` of line 164, and the frame's tone decision
`has_tone`.  In the source `has_tone` is computed at line 200 from the
frame's RMS energy alone (see `has_tone_final` below); the callback body
from line 202 on is a pure function of that boolean and `now_ms`, which is
what this definition embeds. -/
def ringback_media_callback (state : RingbackState) (frameValid : Bool)
    (now_ms : Nat) (has_tone : Bool) : RingbackState × BugOutput :=
  if state.running = false then (state, BUG_CONTINUE)
  else if frameValid = false then (state, BUG_CONTINUE)
  else if 0 < state.max_detect_time_ms ∧ state.max_detect_time_ms < now_ms then
    ({ state with running := false }, ⟨false, true, false⟩)
  else if has_tone then
    if state.in_tone = false then
      ({ state with
          in_tone := true,
          last_silence_duration_ms :=
            if 0 < state.silence_start_ms then u32sub now_ms state.silence_start_ms
            else state.last_silence_duration_ms,
          tone_start_ms := now_ms }, BUG_CONTINUE)
    else (state, BUG_CONTINUE)
  else if state.in_tone then
    let on_ms := u32sub now_ms state.tone_start_ms
    let s1 := { state with
        in_tone := false,
        last_tone_duration_ms := on_ms,
        silence_start_ms := now_ms }
    if match_busy_pattern on_ms 0 then
      let s2 := { s1 with consecutive_busy := s1.consecutive_busy + 1,
                          consecutive_ringback := 0 }
      if 2 ≤ s2.consecutive_busy then
        ({ s2 with tone_type := RINGBACK_TONE_BUSY, running := false },
         ⟨false, true, s2.hangup_on_busy⟩)
      else (s2, BUG_CONTINUE)
    else if match_ringback_pattern on_ms 0 then
      let s2 := { s1 with consecutive_ringback := s1.consecutive_ringback + 1,
                          consecutive_busy := 0 }
      if 1 ≤ s2.consecutive_ringback then
        ({ s2 with tone_type := RINGBACK_TONE_RINGBACK }, BUG_CONTINUE)
      else (s2, BUG_CONTINUE)
    else
      ({ s1 with consecutive_busy := 0, consecutive_ringback := 0 }, BUG_CONTINUE)
  else if state.silence_start_ms = 0 then
    ({ state with silence_start_ms := now_ms }, BUG_CONTINUE)
  else (state, BUG_CONTINUE)

/-- The state installed by start_ringback (mod_ringback.c lines 278-298):
`memset 0`, then `running = 1`, `max_detect_time_ms` (60000 by default, or
`atoi(var) * 1000` when the channel variable parses to a positive number)
and `hangup_on_busy`. -/
def initState (maxMs : Nat) (hangupOnBusy : Bool) : RingbackState :=
  { running := true, in_tone := false, tone_start_ms := 0,
    silence_start_ms := 0, last_tone_duration_ms := 0,
    last_silence_duration_ms := 0, tone_type := 0,
    consecutive_busy := 0, consecutive_ringback := 0,
    max_detect_time_ms := maxMs, hangup_on_busy := hangupOnBusy }

/-- Sequential delivery of valid frames, each given as
(has_tone, now_ms); the media bug invokes the callback once per frame in
temporal order. -/
def runFrames (s : RingbackState) (frames : List (Bool × Nat)) : RingbackState :=
  frames.foldl (fun st f => (ringback_media_callback st true f.2 f.1).1) s

/-- States reachable from a freshly attached session by some valid frame
sequence. -/
def Reachable (maxMs : Nat) (hangupOnBusy : Bool) (s : RingbackState) : Prop :=
  ∃ frames, runFrames (initState maxMs hangupOnBusy) frames = s

/-! ### Result reporting (set_ringback_result, mod_ringback.c lines 252-266) -/

/-- Values of the `ringback_finish_cause` channel variable. -/
inductive FinishCause where
  | busy
  | ringback
  | timeout
  deriving Repr, DecidableEq

/-- Value written to `ringback_finish_cause` by set_ringback_result
(mod_ringback.c lines 256-258). -/
def ringback_finish_cause (tone_type : Nat) : FinishCause :=
  if tone_type = RINGBACK_TONE_BUSY then .busy
  else if tone_type = RINGBACK_TONE_RINGBACK then .ringback
  else .timeout

/-- Values of the `ringback_tone` / `ringback_result` channel variables. -/
inductive ToneResult where
  | busy
  | ringback
  | unknown
  deriving Repr, DecidableEq

/-- Value written to `ringback_tone` and `ringback_result` by
set_ringback_result (mod_ringback.c lines 259-264). -/
def ringback_tone_result (tone_type : Nat) : ToneResult :=
  if tone_type = RINGBACK_TONE_BUSY then .busy
  else if tone_type = RINGBACK_TONE_RINGBACK then .ringback
  else .unknown

/-! ### Energy analysis (mod_ringback.c lines 84-118 and 178-200)

C `double` arithmetic is modelled over `ℝ`. -/

/-- TARGET_FREQ (mod_ringback.c line 34): the 450.0 Hz detection target. -/
def TARGET_FREQ : ℝ := 450

/-- ENERGY_THRESHOLD (mod_ringback.c line 54), compared against the
frame's RMS energy. -/
def ENERGY_THRESHOLD : ℝ := 500

/-- The narrow-band energy threshold literal `1000` of mod_ringback.c
lines 193 and 196. -/
def GOERTZEL_ENERGY_THRESHOLD : ℝ := 1000

/-- calc_frame_energy (mod_ringback.c lines 110-118): RMS magnitude
`sqrt(sum of squares / count)` of a frame of int16 samples. -/
noncomputable def calc_frame_energy (samples : List ℤ) : ℝ :=
  Real.sqrt ((samples.map fun s : ℤ => ((s : ℝ)) * ((s : ℝ))).sum / (samples.length : ℝ))

/-- goertzel_process_sample (mod_ringback.c lines 93-99): one step of the
Goertzel recurrence on the accumulator pair (s1, s2). -/
noncomputable def goertzel_process_sample (coef s1 s2 sample : ℝ) : ℝ × ℝ :=
  (sample + coef * s1 - s2, s1)

/-- goertzel_get_energy (mod_ringback.c lines 102-107). -/
noncomputable def goertzel_get_energy (coef s1 s2 : ℝ) : ℝ :=
  (s1 * s1 + s2 * s2 - coef * s1 * s2) / ((GOERTZEL_N : ℝ) * (GOERTZEL_N : ℝ))

/-- The intermediate bin index `k` of init_goertzel (mod_ringback.c
line 87): `k = (double)GOERTZEL_N * TARGET_FREQ / SAMPLE_RATE`, with no
rounding. -/
noncomputable def goertzel_k : ℝ := (GOERTZEL_N : ℝ) * TARGET_FREQ / (SAMPLE_RATE : ℝ)

/-- The Goertzel coefficient computed by init_goertzel (mod_ringback.c
line 88): `2.0 * cos(2.0 * M_PI * k / GOERTZEL_N)`. -/
noncomputable def goertzel_coefficient : ℝ :=
  2 * Real.cos (2 * Real.pi * goertzel_k / (GOERTZEL_N : ℝ))

/-- The coefficient the specification describes: `2·cos(2π·k/N)` with
`k = round(N·f_target/f_sample)`.  Stated only for comparison with
`goertzel_coefficient`, the value the source actually computes. -/
noncomputable def goertzel_coefficient_specClaim : ℝ :=
  2 * Real.cos (2 * Real.pi * ((round goertzel_k : ℤ) : ℝ) / (GOERTZEL_N : ℝ))

/-- The preliminary combined tone gate of mod_ringback.c line 193:
`(energy > ENERGY_THRESHOLD) && (goertzel_energy > 1000 || sample_count > 0)`.
Its value (after the further strengthening at lines 194-197, which only
or-in another Goertzel comparison) is discarded: line 200 overwrites
`has_tone` unconditionally. -/
def has_tone_combined (energy goertzel_energy : ℝ) (sample_count : Nat) : Prop :=
  energy > ENERGY_THRESHOLD ∧
    (goertzel_energy > GOERTZEL_ENERGY_THRESHOLD ∨ 0 < sample_count)

/-- The tone-present value the callback actually uses, from the
unconditional overwrite at mod_ringback.c line 200:
`has_tone = (energy > ENERGY_THRESHOLD);` — the broadband RMS check
alone. -/
def has_tone_final (energy : ℝ) : Prop := energy > ENERGY_THRESHOLD

/-- The per-frame gate the specification requires (spec section 4.2):
broadband energy above threshold AND narrow-band 450 Hz energy above its
own threshold.  Stated only for comparison with `has_tone_final`. -/
def has_tone_specClaim (energy goertzel_energy : ℝ) : Prop :=
  energy > ENERGY_THRESHOLD ∧ goertzel_energy > GOERTZEL_ENERGY_THRESHOLD

/-! ### Helper lemmas -/

/-- With the off-duration argument fixed to 0 — the value the callback
passes at mod_ringback.c line 219 — the busy matcher can never hold,
because BUSY_OFF_MIN = 250 > 0. -/
theorem match_busy_off_zero (on_ms : Nat) : ¬ match_busy_pattern on_ms 0 := by
  simp only [match_busy_pattern, BUSY_ON_MIN, BUSY_ON_MAX, BUSY_OFF_MIN, BUSY_OFF_MAX]
  omega

/-- With the off-duration argument fixed to 0 — the value the callback
passes at mod_ringback.c line 232 — the ringback matcher can never hold,
because RINGBACK_OFF_MIN = 3000 > 0. -/
theorem match_ringback_off_zero (on_ms : Nat) : ¬ match_ringback_pattern on_ms 0 := by
  simp only [match_ringback_pattern, RINGBACK_ON_MIN, RINGBACK_ON_MAX, RINGBACK_OFF_MIN,
    RINGBACK_OFF_MAX]
  omega

/-- A callback invocation on a stopped session (running = 0) returns at
mod_ringback.c line 153 without touching any state. -/
theorem callback_stopped_noop (s : RingbackState) (v : Bool) (n : Nat) (h : Bool)
    (hrun : s.running = false) :
    ringback_media_callback s v n h = (s, BUG_CONTINUE) := by
  simp [ringback_media_callback, hrun]

/-- A whole frame sequence delivered to a stopped session leaves the state
unchanged. -/
theorem runFrames_stopped_noop (s : RingbackState) (hrun : s.running = false) :
    ∀ frames, runFrames s frames = s := by
  intro frames
  induction frames with
  | nil => rfl
  | cons f fs ih =>
      have h1 : (ringback_media_callback s true f.2 f.1).1 = s := by
        rw [callback_stopped_noop s true f.2 f.1 hrun]
      calc runFrames s (f :: fs)
          = runFrames (ringback_media_callback s true f.2 f.1).1 fs := rfl
        _ = runFrames s fs := by rw [h1]
        _ = s := ih

/-- One callback invocation preserves the invariant that a still-running
session has recorded no verdict (tone_type = 0): the only write of
RINGBACK_TONE_BUSY also clears `running`, and the write of
RINGBACK_TONE_RINGBACK is behind `match_ringback_pattern(on_ms, 0)`,
which never holds. -/
theorem callback_preserves_no_verdict (s : RingbackState) (v : Bool) (n : Nat) (h : Bool)
    (hP : s.running = true → s.tone_type = 0) :
    (ringback_media_callback s v n h).1.running = true →
      (ringback_media_callback s v n h).1.tone_type = 0 := by
  unfold ringback_media_callback
  simp only [match_busy_off_zero, match_ringback_off_zero, if_false]
  split
  · exact hP
  split
  · exact hP
  split
  · intro hc; exact absurd hc (by simp)
  split
  · split
    · intro _; exact hP (by assumption)
    · exact hP
  split
  · intro _; exact hP (by assumption)
  split
  · intro _; exact hP (by assumption)
  · exact hP

/-- Every reachable still-running state has tone_type = 0: no verdict is
recorded while the session runs. -/
theorem reachable_no_verdict (maxMs : Nat) (hb : Bool) (s : RingbackState)
    (hreach : Reachable maxMs hb s) :
    s.running = true → s.tone_type = 0 := by
  obtain ⟨frames, hf⟩ := hreach
  subst hf
  have key : ∀ (fs : List (Bool × Nat)) (st : RingbackState),
      (st.running = true → st.tone_type = 0) →
      ((runFrames st fs).running = true → (runFrames st fs).tone_type = 0) := by
    intro fs
    induction fs with
    | nil => intro st hst; exact hst
    | cons f rest ih =>
        intro st hst
        exact ih (ringback_media_callback st true f.2 f.1).1
          (callback_preserves_no_verdict st true f.2 f.1 hst)
  exact key frames (initState maxMs hb) (fun _ => rfl)

/-- The bin value computed at mod_ringback.c line 87:
k = 205 * 450 / 8000 = 11.53125 = 369/32, a non-integer. -/
theorem goertzel_k_val : goertzel_k = 369 / 32 := by
  unfold goertzel_k TARGET_FREQ SAMPLE_RATE GOERTZEL_N
  norm_num

/-- The integer bin nearest to 11.53125 is 12. -/
theorem round_goertzel_k : round goertzel_k = 12 := by
  rw [goertzel_k_val, round_eq]
  norm_num

/-! ### Claim theorems -/

/-- C1: the claim says the per-frame tone-present boolean requires both
the broadband RMS gate and the narrow-band Goertzel gate.  The code
computes the combined gate (line 193) but then unconditionally overwrites
it at mod_ringback.c line 200 with the broadband check alone.  Evaluation
at the failing input: a frame of 205 constant samples of value 1000 has
RMS energy exactly 1000 > 500, so the code marks it tone-present, while
the claimed combined gate rejects it whenever the 450 Hz narrow-band
energy is at or below its threshold (here instantiated at 0, the value of
a frame with no 450 Hz content). -/
theorem c1_broadband_gate_overrides :
    calc_frame_energy (List.replicate 205 (1000 : ℤ)) = 1000 ∧
    has_tone_final (calc_frame_energy (List.replicate 205 (1000 : ℤ))) ∧
    ¬ has_tone_specClaim (calc_frame_energy (List.replicate 205 (1000 : ℤ))) 0 := by
  have he : calc_frame_energy (List.replicate 205 (1000 : ℤ)) = 1000 := by
    unfold calc_frame_energy
    rw [List.map_replicate, List.sum_replicate, List.length_replicate]
    push_cast
    norm_num
    rw [show (1000000 : ℝ) = 1000 ^ 2 by norm_num,
      Real.sqrt_sq (by norm_num : (0:ℝ) ≤ 1000)]
  refine ⟨he, ?_, ?_⟩
  · rw [he]; unfold has_tone_final ENERGY_THRESHOLD; norm_num
  · rw [he]; unfold has_tone_specClaim GOERTZEL_ENERGY_THRESHOLD; norm_num

/-- C8 counterexample: the coefficient init_goertzel computes uses the
unrounded bin k = 11.53125, so it differs from the specified
2·cos(2π·round(k)/N) with round(k) = 12 — cosine is injective on
[0, π] and both angles lie there. -/
theorem c8_coefficient_ne_rounded :
    goertzel_coefficient ≠ goertzel_coefficient_specClaim := by
  unfold goertzel_coefficient goertzel_coefficient_specClaim
  rw [round_goertzel_k, goertzel_k_val]
  intro heq
  have h2 : Real.cos (2 * Real.pi * (369 / 32) / ((GOERTZEL_N : ℕ) : ℝ)) =
      Real.cos (2 * Real.pi * ((12 : ℤ) : ℝ) / ((GOERTZEL_N : ℕ) : ℝ)) := by linarith
  have hmem1 : 2 * Real.pi * (369 / 32) / ((GOERTZEL_N : ℕ) : ℝ) ∈ Set.Icc 0 Real.pi := by
    unfold GOERTZEL_N
    constructor
    · positivity
    · push_cast
      nlinarith [Real.pi_pos]
  have hmem2 : 2 * Real.pi * ((12 : ℤ) : ℝ) / ((GOERTZEL_N : ℕ) : ℝ) ∈ Set.Icc 0 Real.pi := by
    unfold GOERTZEL_N
    constructor
    · positivity
    · push_cast
      nlinarith [Real.pi_pos]
  have := Real.injOn_cos hmem1 hmem2 h2
  unfold GOERTZEL_N at this
  push_cast at this
  nlinarith [Real.pi_pos]

/-- C8 amended: the coefficient equals 2·cos(2π·k/N) with the UNROUNDED
k = N·f_target/f_sample = 11.53125 = 369/32, that is,
2·cos(369·π/3280). -/
theorem c8_coefficient_unrounded :
    goertzel_coefficient = 2 * Real.cos (369 * Real.pi / 3280) := by
  unfold goertzel_coefficient goertzel_k TARGET_FREQ SAMPLE_RATE GOERTZEL_N
  congr 1
  push_cast
  ring_nf

/-- C2: the claim says that on a falling edge the classifier is given the
genuine measured silence duration as off_ms, never a constant.  The code
instead passes the constant 0 (mod_ringback.c lines 219 and 232), which no
template's off-range contains.  Evaluation at the failing input: after
silence from 100 ms to 450 ms and tone from 450 ms to 800 ms, the tracker
has measured the genuine pair (on = 350, off = 350), which matches the
busy template, yet the busy counter stays 0 because the matcher was
invoked with off_ms = 0. -/
theorem c2_classifier_gets_constant_off :
    match_busy_pattern 350 350 ∧
    (∀ on_ms, ¬ match_busy_pattern on_ms 0) ∧
    (∀ on_ms, ¬ match_ringback_pattern on_ms 0) ∧
    (runFrames (initState 60000 true)
      [(false, 100), (true, 450), (false, 800)]).last_tone_duration_ms = 350 ∧
    (runFrames (initState 60000 true)
      [(false, 100), (true, 450), (false, 800)]).last_silence_duration_ms = 350 ∧
    (runFrames (initState 60000 true)
      [(false, 100), (true, 450), (false, 800)]).consecutive_busy = 0 :=
  ⟨by decide, match_busy_off_zero, match_ringback_off_zero, by decide, by decide, by decide⟩

/-- C3: the congestion template itself accepts every pair with
on_ms in 600..800 and off_ms in 500..900, but the callback never consults
it: after a genuine congestion cycle (silence 100..800 ms, tone
800..1500 ms, i.e. the pair (700, 700)), no counter moves, no verdict is
recorded and the session keeps running — there is no CONGESTION verdict
path in the code. -/
theorem c3_congestion_template_unreachable (on_ms off_ms : Nat)
    (h1 : 600 ≤ on_ms) (h2 : on_ms ≤ 800) (h3 : 500 ≤ off_ms) (h4 : off_ms ≤ 900) :
    match_congestion_pattern on_ms off_ms ∧
    (runFrames (initState 60000 true)
      [(false, 100), (true, 800), (false, 1500)]).last_tone_duration_ms = 700 ∧
    (runFrames (initState 60000 true)
      [(false, 100), (true, 800), (false, 1500)]).last_silence_duration_ms = 700 ∧
    (runFrames (initState 60000 true)
      [(false, 100), (true, 800), (false, 1500)]).tone_type = 0 ∧
    (runFrames (initState 60000 true)
      [(false, 100), (true, 800), (false, 1500)]).running = true := by
  refine ⟨?_, by decide, by decide, by decide, by decide⟩
  simp only [match_congestion_pattern, CONGESTION_ON_MIN, CONGESTION_ON_MAX,
    CONGESTION_OFF_MIN, CONGESTION_OFF_MAX]
  omega

/-- C3 witness: the theorem applied at the pair (700, 700). -/
theorem c3_congestion_template_unreachable_witness :
    match_congestion_pattern 700 700 ∧
    (runFrames (initState 60000 true)
      [(false, 100), (true, 800), (false, 1500)]).last_tone_duration_ms = 700 ∧
    (runFrames (initState 60000 true)
      [(false, 100), (true, 800), (false, 1500)]).last_silence_duration_ms = 700 ∧
    (runFrames (initState 60000 true)
      [(false, 100), (true, 800), (false, 1500)]).tone_type = 0 ∧
    (runFrames (initState 60000 true)
      [(false, 100), (true, 800), (false, 1500)]).running = true :=
  c3_congestion_template_unreachable 700 700 (by decide) (by decide) (by decide) (by decide)

/-- C4: the claim (and spec section 8) expect BUSY to fire after two
consecutive busy cycles.  Evaluation of the code on two genuine busy
cycles (350 ms silence / 350 ms tone, twice: two completed pairs
(350, 350), both matching the busy template) shows consecutive_busy never
increments, no BUSY verdict is recorded, and the session keeps running,
because match_busy_pattern is invoked with off_ms = 0. -/
theorem c4_busy_never_fires :
    match_busy_pattern 350 350 ∧
    (runFrames (initState 60000 true)
      [(false, 100), (true, 450), (false, 800), (true, 1150), (false, 1500)]).consecutive_busy
        = 0 ∧
    (runFrames (initState 60000 true)
      [(false, 100), (true, 450), (false, 800), (true, 1150), (false, 1500)]).tone_type = 0 ∧
    (runFrames (initState 60000 true)
      [(false, 100), (true, 450), (false, 800), (true, 1150), (false, 1500)]).running = true :=
  ⟨by decide, by decide, by decide, by decide⟩

/-- C5: the claim (and spec section 8) expect a 1000 ms tone / 4000 ms
silence cycle to record a RINGBACK verdict with the session left active.
Evaluation of the code on that cycle (genuine pair (1000, 4000), which
matches the ringback template) shows the ringback counter never
increments and tone_type stays 0 — no RINGBACK verdict is ever recorded,
because match_ringback_pattern is invoked with off_ms = 0. -/
theorem c5_ringback_never_recorded :
    match_ringback_pattern 1000 4000 ∧
    (∀ on_ms, ¬ match_ringback_pattern on_ms 0) ∧
    (runFrames (initState 60000 true)
      [(false, 100), (true, 4100), (false, 5100)]).consecutive_ringback = 0 ∧
    (runFrames (initState 60000 true)
      [(false, 100), (true, 4100), (false, 5100)]).tone_type = 0 ∧
    (runFrames (initState 60000 true)
      [(false, 100), (true, 4100), (false, 5100)]).running = true :=
  ⟨by decide, match_ringback_off_zero, by decide, by decide, by decide⟩

/-- C6: on any frame delivered to a reachable running session after the
configured maximum elapsed time (mod_ringback.c lines 167-171), the
session stops, set_ringback_result runs exactly once reporting finish
cause "timeout" (possible because a reachable running state has
tone_type = 0), and every subsequent frame delivery is a no-op that
leaves the stopped state — and hence the TIMEOUT verdict — unchanged and
performs no further result write or hang-up. -/
theorem c6_timeout_once_sticky (maxMs : Nat) (hb : Bool) (s : RingbackState)
    (now : Nat) (ht : Bool)
    (hreach : Reachable maxMs hb s) (hrun : s.running = true)
    (hmax : 0 < s.max_detect_time_ms) (hnow : s.max_detect_time_ms < now) :
    (ringback_media_callback s true now ht).1.running = false ∧
    (ringback_media_callback s true now ht).2.resultSet = true ∧
    ringback_finish_cause (ringback_media_callback s true now ht).1.tone_type =
      FinishCause.timeout ∧
    (∀ v n2 h2, ringback_media_callback (ringback_media_callback s true now ht).1 v n2 h2 =
      ((ringback_media_callback s true now ht).1, BUG_CONTINUE)) ∧
    (∀ frames, runFrames (ringback_media_callback s true now ht).1 frames =
      (ringback_media_callback s true now ht).1) := by
  have htype : s.tone_type = 0 := reachable_no_verdict maxMs hb s hreach hrun
  have hstep : ringback_media_callback s true now ht =
      ({ s with running := false }, ⟨false, true, false⟩) := by
    simp [ringback_media_callback, hrun, hmax, hnow]
  rw [hstep]
  refine ⟨rfl, rfl, ?_, ?_, ?_⟩
  · show ringback_finish_cause s.tone_type = FinishCause.timeout
    rw [htype]
    decide
  · intro v n2 h2
    exact callback_stopped_noop _ v n2 h2 rfl
  · exact runFrames_stopped_noop _ rfl

/-- C6 witness: the theorem applied to the freshly attached session with
the default 60000 ms limit, at elapsed time 60001 ms. -/
theorem c6_timeout_once_sticky_witness :
    (ringback_media_callback (initState 60000 true) true 60001 false).1.running = false ∧
    (ringback_media_callback (initState 60000 true) true 60001 false).2.resultSet = true ∧
    ringback_finish_cause
      (ringback_media_callback (initState 60000 true) true 60001 false).1.tone_type =
        FinishCause.timeout ∧
    (∀ v n2 h2, ringback_media_callback
        (ringback_media_callback (initState 60000 true) true 60001 false).1 v n2 h2 =
      ((ringback_media_callback (initState 60000 true) true 60001 false).1, BUG_CONTINUE)) ∧
    (∀ frames, runFrames
        (ringback_media_callback (initState 60000 true) true 60001 false).1 frames =
      (ringback_media_callback (initState 60000 true) true 60001 false).1) :=
  c6_timeout_once_sticky 60000 true (initState 60000 true) 60001 false
    ⟨[], rfl⟩ rfl (by decide) (by decide)

/-- C7: once the session is terminal (running cleared), every further
frame delivery is a no-op — the callback returns at mod_ringback.c
line 153 with the state untouched, no result write and no hang-up
request. -/
theorem c7_terminal_feed_noop (s : RingbackState) (v : Bool) (n : Nat) (h : Bool)
    (hrun : s.running = false) :
    ringback_media_callback s v n h = (s, BUG_CONTINUE) :=
  callback_stopped_noop s v n h hrun

/-- C7 witness: the theorem applied to a concrete stopped session. -/
theorem c7_terminal_feed_noop_witness :
    ringback_media_callback { initState 60000 true with running := false } true 20 true =
      ({ initState 60000 true with running := false }, BUG_CONTINUE) :=
  c7_terminal_feed_noop { initState 60000 true with running := false } true 20 true rfl

/-- C9: the busy template matcher holds on the whole closed box
[250,450] x [250,450] and rejects on_ms = 200 and on_ms = 500 for any
off_ms in [250,450]; it is a pure function of its two arguments. -/
theorem c9_busy_template_box (on_ms off_ms : Nat)
    (h1 : 250 ≤ on_ms) (h2 : on_ms ≤ 450) (h3 : 250 ≤ off_ms) (h4 : off_ms ≤ 450) :
    match_busy_pattern on_ms off_ms ∧
    ¬ match_busy_pattern 200 off_ms ∧
    ¬ match_busy_pattern 500 off_ms := by
  simp only [match_busy_pattern, BUSY_ON_MIN, BUSY_ON_MAX, BUSY_OFF_MIN, BUSY_OFF_MAX]
  omega

/-- C9 witness: the theorem applied at the pair (350, 350). -/
theorem c9_busy_template_box_witness :
    match_busy_pattern 350 350 ∧
    ¬ match_busy_pattern 200 350 ∧
    ¬ match_busy_pattern 500 350 :=
  c9_busy_template_box 350 350 (by decide) (by decide) (by decide) (by decide)

/-- C10: the three templates are pairwise disjoint for every pair of
durations, because their on-duration ranges [250,450], [900,1200] and
[600,800] do not overlap — no segment pair can match two templates. -/
theorem c10_templates_pairwise_disjoint (on_ms off_ms : Nat) :
    ¬ (match_busy_pattern on_ms off_ms ∧ match_ringback_pattern on_ms off_ms) ∧
    ¬ (match_busy_pattern on_ms off_ms ∧ match_congestion_pattern on_ms off_ms) ∧
    ¬ (match_ringback_pattern on_ms off_ms ∧ match_congestion_pattern on_ms off_ms) := by
  simp only [match_busy_pattern, match_ringback_pattern, match_congestion_pattern,
    BUSY_ON_MIN, BUSY_ON_MAX, BUSY_OFF_MIN, BUSY_OFF_MAX,
    RINGBACK_ON_MIN, RINGBACK_ON_MAX, RINGBACK_OFF_MIN, RINGBACK_OFF_MAX,
    CONGESTION_ON_MIN, CONGESTION_ON_MAX, CONGESTION_OFF_MIN, CONGESTION_OFF_MAX]
  omega

/-- C10 witness: the theorem applied at the pair (350, 350). -/
theorem c10_templates_pairwise_disjoint_witness :
    ¬ (match_busy_pattern 350 350 ∧ match_ringback_pattern 350 350) ∧
    ¬ (match_busy_pattern 350 350 ∧ match_congestion_pattern 350 350) ∧
    ¬ (match_ringback_pattern 350 350 ∧ match_congestion_pattern 350 350) :=
  c10_templates_pairwise_disjoint 350 350

end ModRingback
